import Mathlib

/-!
# Verification of `rper` (recursive permission changer)

A shallow embedding in Lean 4 of the core logic of `rper`, a C utility that
recursively changes POSIX permission bits, together with theorems checking
its documented behaviour.  Two versions of the program exist in the
repository: `rper_0.2.c` (the current one) and an earlier `0.1` source;
where a claim concerns both, both are embedded.

Machine integers are modelled as `Nat` (with explicit reduction modulo
`2 ^ 32` wherever the C `mode_t` / `unsigned int` arithmetic could wrap)
and as `Int` where the C code computes in signed `int`.  I/O is modelled
by lists of events: each `printf` / `fprintf(stderr, ...)` of the source
becomes one event value, so that theorems can speak about which lines are
emitted on which stream without formatting strings.
-/

namespace Rper

/-- The value `2 ^ 32`, the modulus of the C `mode_t` / `unsigned int` arithmetic. -/
def MASK32 : Nat := 2 ^ 32

/-- Bitwise complement within 32 bits: the C `~` operator applied to a
32-bit operand (below `2 ^ 32`), reinterpreted as unsigned. -/
def compl32 (x : Nat) : Nat := (MASK32 - 1) ^^^ x

/-- The global `char wildcard_mode[4]` of the C source: the three mode
characters (user, group, other) copied there by
`validate_and_process_octal`. -/
structure WildcardMode where
  c0 : Char
  c1 : Char
  c2 : Char
deriving DecidableEq

/-- The slot `wildcard_mode[i]` for `i = 0, 1, 2`. -/
def WildcardMode.slot (wm : WildcardMode) (i : Nat) : Char :=
  match i with
  | 0 => wm.c0
  | 1 => wm.c1
  | _ => wm.c2

/-- The character set `"4567*"` accepted by `validate_and_process_octal`
(the C check is `strspn(optarg, "4567*") == 3`). -/
def octalChars : List Char := ['4', '5', '6', '7', '*']

/-- A `WildcardMode` as produced by the validator: every slot is one of
`4`, `5`, `6`, `7`, `*`. -/
def ValidWM (wm : WildcardMode) : Prop :=
  wm.c0 ∈ octalChars ∧ wm.c1 ∈ octalChars ∧ wm.c2 ∈ octalChars

instance (wm : WildcardMode) : Decidable (ValidWM wm) := by
  unfold ValidWM; infer_instance

/-- One iteration of the loop body of `apply_wildcard_mode` in
`rper_0.2.c` (lines 160-165):

    if (wildcard_mode[i] != '*') \x7b
        new_mode &= ~((mode_t)7 << (6 - 3 * i));
        new_mode |= ((mode_t)wildcard_mode[i] - '0') << (6 - 3 * i);
    \x7d

The subtraction `(mode_t)wildcard_mode[i] - '0'` is unsigned 32-bit
arithmetic and the shifts are `mode_t` shifts, hence the explicit
`% MASK32`. -/
def applyStep (wm : WildcardMode) (i : Nat) (new_mode : Nat) : Nat :=
  if wm.slot i ≠ '*' then
    (new_mode &&& compl32 ((7 <<< (6 - 3 * i)) % MASK32)) |||
      ((((wm.slot i).toNat + MASK32 - 48) % MASK32) <<< (6 - 3 * i)) % MASK32
  else
    new_mode

/-- The function `apply_wildcard_mode` of `rper_0.2.c` (lines 156-168): mask the old
mode to its low 9 bits (`old_mode & 0777`), then run the loop body for
`i = 0, 1, 2`. -/
def apply_wildcard_mode (wm : WildcardMode) (old_mode : Nat) : Nat :=
  List.foldl (fun m i => applyStep wm i m) (old_mode &&& 0o777) [0, 1, 2]

/-- Specification-side description of one slot of the apply contract: a
wildcard keeps the original 3-bit group, a digit character replaces it
with the digit's value. -/
def slotApply (c : Char) (orig : Nat) : Nat :=
  if c = '*' then orig else c.toNat - 48

/-- One iteration of the loop body of `apply_wildcard_mode` in the 0.1
source (`src/unnamed/part_001`, lines 120-125):

    if (wildcard_mode[i] != '*') \x7b
        new_mode &= ~(7 << (6 - 3 * i));
        new_mode |= (wildcard_mode[i] - '0') << (6 - 3 * i);
    \x7d

Here the shifted values are plain `int`s: `~x` is the two's-complement
`-x - 1`, and the `int` left shift is modelled as multiplication by a
power of two; both operands are converted to unsigned 32-bit (`% 2^32`)
when combined with the `mode_t` value `new_mode`. -/
def applyStep_v01 (wm : WildcardMode) (i : Nat) (new_mode : Nat) : Nat :=
  if wm.slot i ≠ '*' then
    (new_mode &&& ((-(7 * 2 ^ (6 - 3 * i)) - 1 : Int) % (MASK32 : Int)).toNat) |||
      ((((wm.slot i).toNat : Int) - 48) * 2 ^ (6 - 3 * i) % (MASK32 : Int)).toNat
  else
    new_mode

/-- The function `apply_wildcard_mode` of the 0.1 source (lines 116-128). -/
def apply_wildcard_mode_v01 (wm : WildcardMode) (old_mode : Nat) : Nat :=
  List.foldl (fun m i => applyStep_v01 wm i m) (old_mode &&& 0o777) [0, 1, 2]

/-- C `strspn(s, set)`: length of the longest initial segment of `s`
consisting of characters from `set`. -/
def strspn (s : List Char) (set : List Char) : Nat :=
  match s with
  | [] => 0
  | c :: rest => if c ∈ set then strspn rest set + 1 else 0

/-- The function `validate_and_process_octal` of `rper_0.2.c` (lines 336-355): strip a
leading `'0'` when the length is exactly 4, then require length exactly 3
with `strspn(optarg, "4567*") == 3`; on success the three characters are
copied into the global `wildcard_mode` (here: returned), on failure the C
function returns `-1` (here: `none`). -/
def validate_and_process_octal (s : List Char) : Option WildcardMode :=
  let s' := if s.length = 4 ∧ s.head? = some '0' then s.tail else s
  if s'.length ≠ 3 ∨ strspn s' octalChars ≠ 3 then
    none
  else
    match s' with
    | a :: b :: c :: _ => some ⟨a, b, c⟩
    | _ => none

/-- The enum `output_mode_t` of `rper_0.2.c` (lines 93-98). -/
inductive OutputMode where
  | normal
  | quiet
  | silent
  | verbose
deriving DecidableEq

/-- The enum `symlink_mode_t` of `rper_0.2.c` (lines 103-107). -/
inductive SymlinkMode where
  | skip
  | follow
  | error
deriving DecidableEq

/-- The part of a `struct stat` the program reads: the `S_ISLNK` /
`S_ISDIR` / `S_ISREG` classification of `st_mode` and its permission
bits. -/
structure Stat where
  isLnk : Bool
  isDir : Bool
  isReg : Bool
  st_mode : Nat
deriving DecidableEq

/-- The filesystem's answers for one path, as consumed by
`change_permissions`: the result of `lstat` (`none` = failure), the
result of `stat` should the symlink be followed, and whether `chmod`
would succeed. -/
structure Entry where
  lstatRes : Option Stat
  statRes : Option Stat
  chmodOk : Bool
deriving DecidableEq

/-- The five global counters of `rper_0.2.c` (lines 81-85). -/
structure Counters where
  files_changed : Nat
  dirs_changed : Nat
  symlinks_skipped : Nat
  symlinks_followed : Nat
  symlink_errors : Nat
deriving DecidableEq

/-- One output line of version 0.2, one constructor per `printf` /
`fprintf(stderr, ...)` in `change_permissions` and `process_directory`. -/
inductive Ev where
  | errCannotStat
  | skipNotice
  | errCannotFollow
  | followNotice
  | errSymlinkFound
  | noopDir
  | noopFile
  | changedDir (oldm newm : Nat)
  | changedFile (oldm newm : Nat)
  | errChmodDir
  | errChmodFile
  | errOpenDir
deriving DecidableEq

/-- Whether an event is written to `stderr` (diagnostics) rather than
`stdout` (progress output). -/
def Ev.isErr : Ev → Bool
  | .errCannotStat => true
  | .errCannotFollow => true
  | .errSymlinkFound => true
  | .errChmodDir => true
  | .errChmodFile => true
  | .errOpenDir => true
  | _ => false

/-- Result of one `change_permissions` call: the updated counters, the
emitted output lines, and the mode passed to `chmod` when `chmod` was
called (`none` when no `chmod` call was attempted). -/
structure CPResult where
  counters : Counters
  events : List Ev
  chmod_attempt : Option Nat
deriving DecidableEq

/-- Lines 230-284 of `rper_0.2.c`: the tail of `change_permissions` that
runs once `statbuf` is settled (directly from `lstat` for a non-symlink,
or from `stat` for a followed symlink).  Computes `old_mode` and
`new_mode`, detects the no-op case, and otherwise attempts `chmod` for a
directory (when `change_dirs`) or a regular file (when `change_files`). -/
def change_permissions_rest (wm : WildcardMode) (st : Stat)
    (change_files change_dirs : Bool) (om : OutputMode) (chmodOk : Bool)
    (c : Counters) : CPResult :=
  let old_mode := st.st_mode &&& 0o777
  let new_mode := apply_wildcard_mode wm old_mode
  if old_mode = new_mode then
    { counters := c
      events :=
        if om ≠ OutputMode.quiet ∧ om ≠ OutputMode.silent then
          if st.isDir then
            if change_dirs || om = OutputMode.verbose then [Ev.noopDir] else []
          else if st.isReg then
            if change_files || om = OutputMode.verbose then [Ev.noopFile] else []
          else []
        else []
      chmod_attempt := none }
  else if st.isDir && change_dirs then
    if chmodOk then
      { counters := { c with dirs_changed := c.dirs_changed + 1 }
        events :=
          if om ≠ OutputMode.quiet ∧ om ≠ OutputMode.silent then
            [Ev.changedDir old_mode new_mode]
          else []
        chmod_attempt := some new_mode }
    else
      { counters := c
        events := if om ≠ OutputMode.silent then [Ev.errChmodDir] else []
        chmod_attempt := some new_mode }
  else if st.isReg && change_files then
    if chmodOk then
      { counters := { c with files_changed := c.files_changed + 1 }
        events :=
          if om ≠ OutputMode.quiet ∧ om ≠ OutputMode.silent then
            [Ev.changedFile old_mode new_mode]
          else []
        chmod_attempt := some new_mode }
    else
      { counters := c
        events := if om ≠ OutputMode.silent then [Ev.errChmodFile] else []
        chmod_attempt := some new_mode }
  else
    { counters := c, events := [], chmod_attempt := none }

/-- The function `change_permissions` of `rper_0.2.c` (lines 188-285): `lstat` the
path; on a symlink run the `symlink_mode` switch (skip / follow / error);
otherwise, and after a successful follow, continue with
`change_permissions_rest`. -/
def change_permissions (wm : WildcardMode) (e : Entry)
    (change_files change_dirs : Bool) (sm : SymlinkMode) (om : OutputMode)
    (c : Counters) : CPResult :=
  match e.lstatRes with
  | none =>
    { counters := c
      events := if om ≠ OutputMode.silent then [Ev.errCannotStat] else []
      chmod_attempt := none }
  | some st =>
    if st.isLnk then
      match sm with
      | SymlinkMode.skip =>
        { counters := { c with symlinks_skipped := c.symlinks_skipped + 1 }
          events :=
            if om = OutputMode.normal ∨ om = OutputMode.verbose then
              [Ev.skipNotice]
            else []
          chmod_attempt := none }
      | SymlinkMode.follow =>
        match e.statRes with
        | none =>
          { counters := c
            events := if om ≠ OutputMode.silent then [Ev.errCannotFollow] else []
            chmod_attempt := none }
        | some st2 =>
          let c2 := { c with symlinks_followed := c.symlinks_followed + 1 }
          let fev := if om = OutputMode.verbose then [Ev.followNotice] else []
          let r := change_permissions_rest wm st2 change_files change_dirs om e.chmodOk c2
          { r with events := fev ++ r.events }
      | SymlinkMode.error =>
        { counters := { c with symlink_errors := c.symlink_errors + 1 }
          events := if om ≠ OutputMode.silent then [Ev.errSymlinkFound] else []
          chmod_attempt := none }
    else
      change_permissions_rest wm st change_files change_dirs om e.chmodOk c

/-- A directory-tree node as the walk sees it: the filesystem's answers
for the node's own path, the `d_type == DT_DIR` bit its parent's
`readdir` reports for it, whether `opendir` on it succeeds, and its
children in enumeration order. -/
inductive Node where
  | mk (entry : Entry) (isDirEnt : Bool) (openOk : Bool) (children : List Node)

/-- The `Entry` of a node. -/
def Node.entryOf : Node → Entry
  | .mk e _ _ _ => e

/-- Whether `readdir` reports the node with `d_type == DT_DIR`. -/
def Node.isDirEntOf : Node → Bool
  | .mk _ d _ _ => d

mutual

/-- The function `process_directory` of `rper_0.2.c` (lines 292-330): change the root
itself when `change_dirs && include_dir`, then `opendir`; on failure emit
an error (unless silent) and return; otherwise run the `readdir` loop
over the children. -/
def process_directory (wm : WildcardMode) (n : Node)
    (recursive change_files change_dirs include_dir : Bool)
    (sm : SymlinkMode) (om : OutputMode) (c : Counters) : Counters × List Ev :=
  match n with
  | .mk entry _ openOk children =>
    let r0 : Counters × List Ev :=
      if change_dirs && include_dir then
        ((change_permissions wm entry false true sm om c).counters,
          (change_permissions wm entry false true sm om c).events)
      else (c, [])
    if openOk then
      let r1 :=
        process_children wm children recursive change_files change_dirs
          include_dir sm om r0.1
      (r1.1, r0.2 ++ r1.2)
    else
      (r0.1, r0.2 ++ (if om ≠ OutputMode.silent then [Ev.errOpenDir] else []))

/-- The `readdir` loop of `process_directory` (lines 311-327): for each
child call `change_permissions`, then recurse when `recursive` is set and
the child's `d_type` is `DT_DIR`. -/
def process_children (wm : WildcardMode) (l : List Node)
    (recursive change_files change_dirs include_dir : Bool)
    (sm : SymlinkMode) (om : OutputMode) (c : Counters) : Counters × List Ev :=
  match l with
  | [] => (c, [])
  | child :: rest =>
    let r := change_permissions wm child.entryOf change_files change_dirs sm om c
    let rd : Counters × List Ev :=
      if recursive && child.isDirEntOf then
        process_directory wm child recursive change_files change_dirs
          include_dir sm om r.counters
      else (r.counters, [])
    let rr :=
      process_children wm rest recursive change_files change_dirs
        include_dir sm om rd.1
    (rr.1, r.events ++ rd.2 ++ rr.2)

end

/-- Componentwise order on the counters. -/
def Counters.le (a b : Counters) : Prop :=
  a.files_changed ≤ b.files_changed ∧ a.dirs_changed ≤ b.dirs_changed ∧
    a.symlinks_skipped ≤ b.symlinks_skipped ∧
    a.symlinks_followed ≤ b.symlinks_followed ∧
    a.symlink_errors ≤ b.symlink_errors

/-- The three output globals of the 0.1 source (lines 73-75). -/
structure Flags01 where
  suppress_output : Bool
  suppress_all_output : Bool
  verbose : Bool
deriving DecidableEq

/-- The two counters of the 0.1 source. -/
structure Counters01 where
  files_changed : Nat
  dirs_changed : Nat
deriving DecidableEq

/-- Result of one 0.1 `change_permissions` call (same reading as
`CPResult`). -/
structure CPResult01 where
  counters : Counters01
  events : List Ev
  chmod_attempt : Option Nat
deriving DecidableEq

/-- The filesystem's answers for one path in the 0.1 version (no
symlink handling exists there). -/
structure Entry01 where
  lstatRes : Option Stat
  chmodOk : Bool
deriving DecidableEq

/-- The function `change_permissions` of the 0.1 source (lines 148-213).  Note the
exact brace structure of the directory branch (lines 177-193): the
`else` holding the "Cannot change directory permissions" diagnostic is
nested inside the `chmod(...) == 0` success branch, so on `chmod`
failure the branch does nothing, while on success with normal output
suppressed the diagnostic is printed when `verbose` is set.  The file
branch's failure diagnostic (line 208) is guarded by
`(!suppress_output && !suppress_all_output) || verbose`. -/
def change_permissions_v01 (wm : WildcardMode) (e : Entry01)
    (change_files change_dirs : Bool) (fl : Flags01)
    (c : Counters01) : CPResult01 :=
  match e.lstatRes with
  | none =>
    { counters := c
      events :=
        if !fl.suppress_output && !fl.suppress_all_output then
          [Ev.errCannotStat]
        else []
      chmod_attempt := none }
  | some st =>
    let old_mode := st.st_mode &&& 0o777
    let new_mode := apply_wildcard_mode_v01 wm old_mode
    if old_mode = new_mode then
      { counters := c
        events :=
          if !fl.suppress_output && !fl.suppress_all_output then
            if st.isDir then
              if change_dirs || fl.verbose then [Ev.noopDir] else []
            else if st.isReg then
              if change_files || fl.verbose then [Ev.noopFile] else []
            else []
          else []
        chmod_attempt := none }
    else if st.isDir && change_dirs then
      if e.chmodOk then
        { counters := { c with dirs_changed := c.dirs_changed + 1 }
          events :=
            if !fl.suppress_output && !fl.suppress_all_output then
              [Ev.changedDir old_mode new_mode]
            else
              if (!fl.suppress_output && !fl.suppress_all_output) || fl.verbose then
                [Ev.errChmodDir]
              else []
          chmod_attempt := some new_mode }
      else
        { counters := c, events := [], chmod_attempt := some new_mode }
    else if st.isReg && change_files then
      if e.chmodOk then
        { counters := { c with files_changed := c.files_changed + 1 }
          events :=
            if !fl.suppress_output && !fl.suppress_all_output then
              [Ev.changedFile old_mode new_mode]
            else []
          chmod_attempt := some new_mode }
      else
        { counters := c
          events :=
            if (!fl.suppress_output && !fl.suppress_all_output) || fl.verbose then
              [Ev.errChmodFile]
            else []
          chmod_attempt := some new_mode }
    else
      { counters := c, events := [], chmod_attempt := none }

/-- The three verbosity options.  The remaining `getopt` cases of either
`main` never write the verbosity state, so a run's command line is
abstracted to the subsequence of `-s` / `-S` / `-v` occurrences in
order. -/
inductive VFlag where
  | sFlag
  | bigSFlag
  | vFlag
deriving DecidableEq

/-- One `getopt` case of `main` in `rper_0.2.c` (lines 392-399): each
flag assigns `output_mode` directly. -/
def output_mode_step (m : OutputMode) (f : VFlag) : OutputMode :=
  match f with
  | .sFlag => OutputMode.quiet
  | .bigSFlag => OutputMode.silent
  | .vFlag => OutputMode.verbose

/-- The `output_mode` global after `main` of `rper_0.2.c` has processed
the given verbosity flags in command-line order (initial value
`OUTPUT_NORMAL`). -/
def output_mode_after (l : List VFlag) : OutputMode :=
  l.foldl output_mode_step OutputMode.normal

/-- Specification-side reading of version 0.2's processing: the last
verbosity flag wins. -/
def lastVerb (l : List VFlag) : OutputMode :=
  match l.getLast? with
  | none => OutputMode.normal
  | some f => output_mode_step OutputMode.normal f

/-- One `getopt` case of `main` in the 0.1 source (lines 321-334):
`-s` sets `suppress_output` and clears `suppress_all_output`; `-S` sets
`suppress_all_output` only when `suppress_output` is unset; `-v` sets
`verbose` and clears both suppression flags. -/
def flags01_step (st : Flags01) (f : VFlag) : Flags01 :=
  match f with
  | .sFlag => { st with suppress_output := true, suppress_all_output := false }
  | .bigSFlag =>
    if !st.suppress_output then { st with suppress_all_output := true } else st
  | .vFlag => { suppress_output := false, suppress_all_output := false, verbose := true }

/-- The output globals after `main` of the 0.1 source has processed the
given verbosity flags in command-line order (all initially 0). -/
def flags01_after (l : List VFlag) : Flags01 :=
  l.foldl flags01_step ⟨false, false, false⟩

/-- One line of the final summary of `rper_0.2.c` (lines 444-456). -/
inductive SummaryEv where
  | completed
  | filesLine (n : Nat)
  | dirsLine (n : Nat)
  | skippedLine (n : Nat)
  | followedLine (n : Nat)
  | symErrLine (n : Nat)
deriving DecidableEq

/-- The final summary block of `main` in `rper_0.2.c` (lines 444-456):
nothing under `OUTPUT_SILENT`; otherwise the completion, files and
directories lines, then the `if / else if` chain that prints the symlink
counter matching `symlink_mode` when it is positive. -/
def print_summary (om : OutputMode) (sm : SymlinkMode) (c : Counters) :
    List SummaryEv :=
  if om = OutputMode.silent then []
  else
    [SummaryEv.completed, SummaryEv.filesLine c.files_changed,
      SummaryEv.dirsLine c.dirs_changed] ++
    (if sm = SymlinkMode.skip ∧ c.symlinks_skipped > 0 then
      [SummaryEv.skippedLine c.symlinks_skipped]
    else if sm = SymlinkMode.follow ∧ c.symlinks_followed > 0 then
      [SummaryEv.followedLine c.symlinks_followed]
    else if sm = SymlinkMode.error ∧ c.symlink_errors > 0 then
      [SummaryEv.symErrLine c.symlink_errors]
    else [])

/-! ## Properties of `apply_wildcard_mode` -/

theorem and511_eq_mod (m : Nat) : m &&& 0o777 = m % 512 := by
  have h := Nat.and_pow_two_sub_one_eq_mod m 9
  norm_num at h
  exact h

theorem applyStep_zero (wm : WildcardMode) (m : Nat) :
    applyStep wm 0 m = applyStep ⟨wm.c0, '*', '*'⟩ 0 m := rfl

theorem applyStep_one (wm : WildcardMode) (m : Nat) :
    applyStep wm 1 m = applyStep ⟨'*', wm.c1, '*'⟩ 1 m := rfl

theorem applyStep_two (wm : WildcardMode) (m : Nat) :
    applyStep wm 2 m = applyStep ⟨'*', '*', wm.c2⟩ 2 m := rfl

set_option maxRecDepth 10000 in
theorem step0_val : ∀ u ∈ octalChars, ∀ a < 8, ∀ b < 8, ∀ c < 8,
    applyStep ⟨u, '*', '*'⟩ 0 (64 * a + 8 * b + c) =
      64 * slotApply u a + 8 * b + c := by
  decide

set_option maxRecDepth 10000 in
theorem step1_val : ∀ g ∈ octalChars, ∀ a < 8, ∀ b < 8, ∀ c < 8,
    applyStep ⟨'*', g, '*'⟩ 1 (64 * a + 8 * b + c) =
      64 * a + 8 * slotApply g b + c := by
  decide

set_option maxRecDepth 10000 in
theorem step2_val : ∀ o ∈ octalChars, ∀ a < 8, ∀ b < 8, ∀ c < 8,
    applyStep ⟨'*', '*', o⟩ 2 (64 * a + 8 * b + c) =
      64 * a + 8 * b + slotApply o c := by
  decide

theorem slotApply_lt : ∀ ch ∈ octalChars, ∀ x < 8, slotApply ch x < 8 := by
  decide

/-- The core characterisation of `apply_wildcard_mode`: the result is
assembled group by group from the low 9 bits of the input, a wildcard
slot keeping the original group and a digit slot imposing its value. -/
theorem apply_wildcard_mode_char (wm : WildcardMode) (h : ValidWM wm) (m : Nat) :
    apply_wildcard_mode wm m =
      64 * slotApply wm.c0 (m / 64 % 8) + 8 * slotApply wm.c1 (m / 8 % 8) +
        slotApply wm.c2 (m % 8) := by
  obtain ⟨h0, h1, h2⟩ := h
  have ha : m / 64 % 8 < 8 := Nat.mod_lt _ (by norm_num)
  have hb : m / 8 % 8 < 8 := Nat.mod_lt _ (by norm_num)
  have hc : m % 8 < 8 := Nat.mod_lt _ (by norm_num)
  have hmask : m &&& 0o777 = 64 * (m / 64 % 8) + 8 * (m / 8 % 8) + m % 8 := by
    rw [and511_eq_mod]; omega
  have hA := slotApply_lt wm.c0 h0 _ ha
  have hB := slotApply_lt wm.c1 h1 _ hb
  unfold apply_wildcard_mode
  simp only [List.foldl_cons, List.foldl_nil]
  rw [applyStep_zero, hmask, step0_val wm.c0 h0 _ ha _ hb _ hc,
    applyStep_one, step1_val wm.c1 h1 _ hA _ hb _ hc,
    applyStep_two, step2_val wm.c2 h2 _ hA _ hB _ hc]

theorem slotApply_idem : ∀ ch ∈ octalChars, ∀ x < 8,
    slotApply ch (slotApply ch x) = slotApply ch x := by
  decide

/-- C1: for every 9-bit permission value and every parsed `ModeSpec`,
`apply_wildcard_mode` masks the input to its low 9 bits and then, for
each of the three 3-bit groups (user, group, other), keeps the original
3 bits when the slot is the wildcard `*` and otherwise replaces them with
the slot's digit value; in particular spec `6*4` applied to mode `0o750`
yields `0o654`.  The function is total (pure, no failure mode). -/
theorem apply_wildcard_mode_spec (wm : WildcardMode) (h : ValidWM wm) (m : Nat) :
    apply_wildcard_mode wm m =
      64 * slotApply wm.c0 (m % 512 / 64) + 8 * slotApply wm.c1 (m % 512 / 8 % 8) +
        slotApply wm.c2 (m % 512 % 8) ∧
    apply_wildcard_mode ⟨'6', '*', '4'⟩ 0o750 = 0o654 := by
  constructor
  · have e1 : m % 512 / 64 = m / 64 % 8 := by omega
    have e2 : m % 512 / 8 % 8 = m / 8 % 8 := by omega
    have e3 : m % 512 % 8 = m % 8 := by omega
    rw [e1, e2, e3]
    exact apply_wildcard_mode_char wm h m
  · decide

theorem apply_wildcard_mode_spec_witness :
    ValidWM ⟨'6', '*', '4'⟩ ∧
      apply_wildcard_mode ⟨'6', '*', '4'⟩ 0o750 =
        64 * slotApply '6' (0o750 % 512 / 64) +
          8 * slotApply '*' (0o750 % 512 / 8 % 8) +
          slotApply '4' (0o750 % 512 % 8) :=
  ⟨by decide, (apply_wildcard_mode_spec ⟨'6', '*', '4'⟩ (by decide) 0o750).1⟩

/-- C7: applying a valid spec twice is the same as applying it once. -/
theorem apply_wildcard_mode_idem (wm : WildcardMode) (h : ValidWM wm) (m : Nat) :
    apply_wildcard_mode wm (apply_wildcard_mode wm m) = apply_wildcard_mode wm m := by
  obtain ⟨h0, h1, h2⟩ := id h
  have ha : m / 64 % 8 < 8 := Nat.mod_lt _ (by norm_num)
  have hb : m / 8 % 8 < 8 := Nat.mod_lt _ (by norm_num)
  have hc : m % 8 < 8 := Nat.mod_lt _ (by norm_num)
  have hA := slotApply_lt wm.c0 h0 _ ha
  have hB := slotApply_lt wm.c1 h1 _ hb
  have hC := slotApply_lt wm.c2 h2 _ hc
  have hchar := apply_wildcard_mode_char wm h m
  rw [hchar, apply_wildcard_mode_char wm h]
  have g1 : (64 * slotApply wm.c0 (m / 64 % 8) + 8 * slotApply wm.c1 (m / 8 % 8) +
      slotApply wm.c2 (m % 8)) / 64 % 8 = slotApply wm.c0 (m / 64 % 8) := by omega
  have g2 : (64 * slotApply wm.c0 (m / 64 % 8) + 8 * slotApply wm.c1 (m / 8 % 8) +
      slotApply wm.c2 (m % 8)) / 8 % 8 = slotApply wm.c1 (m / 8 % 8) := by omega
  have g3 : (64 * slotApply wm.c0 (m / 64 % 8) + 8 * slotApply wm.c1 (m / 8 % 8) +
      slotApply wm.c2 (m % 8)) % 8 = slotApply wm.c2 (m % 8) := by omega
  rw [g1, g2, g3, slotApply_idem wm.c0 h0 _ ha, slotApply_idem wm.c1 h1 _ hb,
    slotApply_idem wm.c2 h2 _ hc]

theorem apply_wildcard_mode_idem_witness :
    apply_wildcard_mode ⟨'6', '*', '4'⟩ (apply_wildcard_mode ⟨'6', '*', '4'⟩ 0o750) =
      apply_wildcard_mode ⟨'6', '*', '4'⟩ 0o750 :=
  apply_wildcard_mode_idem ⟨'6', '*', '4'⟩ (by decide) 0o750

theorem stepv01_zero (wm : WildcardMode) (m : Nat) :
    applyStep_v01 wm 0 m = applyStep_v01 ⟨wm.c0, '*', '*'⟩ 0 m := rfl

theorem stepv01_one (wm : WildcardMode) (m : Nat) :
    applyStep_v01 wm 1 m = applyStep_v01 ⟨'*', wm.c1, '*'⟩ 1 m := rfl

theorem stepv01_two (wm : WildcardMode) (m : Nat) :
    applyStep_v01 wm 2 m = applyStep_v01 ⟨'*', '*', wm.c2⟩ 2 m := rfl

theorem stepv01_eq_step0 : ∀ u ∈ octalChars, ∀ x : Nat,
    applyStep_v01 ⟨u, '*', '*'⟩ 0 x = applyStep ⟨u, '*', '*'⟩ 0 x := by
  intro u hu x
  fin_cases hu <;> rfl

theorem stepv01_eq_step1 : ∀ g ∈ octalChars, ∀ x : Nat,
    applyStep_v01 ⟨'*', g, '*'⟩ 1 x = applyStep ⟨'*', g, '*'⟩ 1 x := by
  intro g hg x
  fin_cases hg <;> rfl

theorem stepv01_eq_step2 : ∀ o ∈ octalChars, ∀ x : Nat,
    applyStep_v01 ⟨'*', '*', o⟩ 2 x = applyStep ⟨'*', '*', o⟩ 2 x := by
  intro o ho x
  fin_cases ho <;> rfl

/-- C10: on every valid wildcard spec and every input mode, the 0.1
`apply_wildcard_mode` (plain `int` shifts) and the 0.2 one (`mode_t`
casts before shifting) agree. -/
theorem apply_v01_eq_v02 (wm : WildcardMode) (h : ValidWM wm) (m : Nat) :
    apply_wildcard_mode_v01 wm m = apply_wildcard_mode wm m := by
  obtain ⟨h0, h1, h2⟩ := h
  unfold apply_wildcard_mode_v01 apply_wildcard_mode
  simp only [List.foldl_cons, List.foldl_nil]
  rw [stepv01_zero, stepv01_eq_step0 wm.c0 h0, ← applyStep_zero,
    stepv01_one, stepv01_eq_step1 wm.c1 h1, ← applyStep_one,
    stepv01_two, stepv01_eq_step2 wm.c2 h2, ← applyStep_two]

theorem apply_v01_eq_v02_witness :
    apply_wildcard_mode_v01 ⟨'6', '*', '4'⟩ 0o750 =
      apply_wildcard_mode ⟨'6', '*', '4'⟩ 0o750 :=
  apply_v01_eq_v02 ⟨'6', '*', '4'⟩ (by decide) 0o750

/-! ## Properties of `validate_and_process_octal` -/

theorem strspn_le (s set : List Char) : strspn s set ≤ s.length := by
  induction s with
  | nil => simp [strspn]
  | cons a t ih =>
    simp only [strspn, List.length_cons]
    split
    · omega
    · omega

theorem strspn_eq_length_iff (s set : List Char) :
    strspn s set = s.length ↔ ∀ c ∈ s, c ∈ set := by
  induction s with
  | nil => simp [strspn]
  | cons a t ih =>
    simp only [strspn, List.length_cons, List.mem_cons]
    split
    · rename_i ha
      constructor
      · intro hlen c hc
        rcases hc with rfl | hc
        · exact ha
        · exact (ih.mp (by omega)) c hc
      · intro hall
        have := ih.mpr (fun c hc => hall c (Or.inr hc))
        omega
    · rename_i ha
      constructor
      · intro hlen
        omega
      · intro hall
        exact absurd (hall a (Or.inl rfl)) ha

/-- C2: `validate_and_process_octal` accepts exactly the strings of
length 3 over `\x7b4,5,6,7,*\x7d`, and the strings of length 4 with a leading
`0` whose remaining three characters are over that set; everything else
(any other length, any length-4 string not led by `0`, any digit `0`-`3`
in a slot) is rejected. -/
theorem validate_octal_accepts_iff (s : List Char) :
    (validate_and_process_octal s).isSome ↔
      (s.length = 3 ∧ ∀ c ∈ s, c ∈ octalChars) ∨
      (s.length = 4 ∧ s.head? = some '0' ∧ ∀ c ∈ s.tail, c ∈ octalChars) := by
  rcases s with _ | ⟨a, _ | ⟨b, _ | ⟨c, _ | ⟨d, _ | ⟨e, t⟩⟩⟩⟩⟩
  · simp [validate_and_process_octal, strspn]
  · simp [validate_and_process_octal, strspn]
  · simp [validate_and_process_octal, strspn]
  · by_cases ha : a ∈ octalChars <;> by_cases hb : b ∈ octalChars <;>
      by_cases hc : c ∈ octalChars <;>
      simp [validate_and_process_octal, strspn, ha, hb, hc]
  · by_cases ha0 : a = '0'
    · subst ha0
      by_cases hb : b ∈ octalChars <;> by_cases hc : c ∈ octalChars <;>
        by_cases hd : d ∈ octalChars <;>
        simp [validate_and_process_octal, strspn, hb, hc, hd]
    · simp [validate_and_process_octal, strspn, ha0]
  · have h1 : ¬((a :: b :: c :: d :: e :: t).length = 4 ∧
        (a :: b :: c :: d :: e :: t).head? = some '0') := by
      rintro ⟨hl, -⟩
      simp at hl
    have h2 : (a :: b :: c :: d :: e :: t).length ≠ 3 := by
      simp
    unfold validate_and_process_octal
    rw [if_neg h1, if_pos (Or.inl h2)]
    simp only [Option.isSome_none, Bool.false_eq_true, false_iff]
    rintro (⟨hl, -⟩ | ⟨hl, -⟩)
    · exact h2 hl
    · simp at hl

/-! ## Properties of `change_permissions` -/

/-- The tail `change_permissions_rest` never touches the three symlink counters. -/
theorem rest_preserves_symlink_counters (wm : WildcardMode) (st : Stat)
    (cf cd : Bool) (om : OutputMode) (ck : Bool) (c : Counters) :
    (change_permissions_rest wm st cf cd om ck c).counters.symlinks_skipped =
        c.symlinks_skipped ∧
      (change_permissions_rest wm st cf cd om ck c).counters.symlinks_followed =
        c.symlinks_followed ∧
      (change_permissions_rest wm st cf cd om ck c).counters.symlink_errors =
        c.symlink_errors := by
  simp only [change_permissions_rest]
  split_ifs <;> simp

/-- C6: when the current 9-bit mode already equals the spec's result,
`change_permissions` attempts no `chmod` and leaves every counter
unchanged; in particular spec `755` applied to a mode already `0o755` is
a detected no-op. -/
theorem noop_no_chmod (wm : WildcardMode) (st : Stat) (cf cd : Bool)
    (om : OutputMode) (ck : Bool) (c : Counters)
    (h : st.st_mode &&& 0o777 = apply_wildcard_mode wm (st.st_mode &&& 0o777)) :
    (change_permissions_rest wm st cf cd om ck c).chmod_attempt = none ∧
      (change_permissions_rest wm st cf cd om ck c).counters = c ∧
      apply_wildcard_mode ⟨'7', '5', '5'⟩ 0o755 = 0o755 := by
  refine ⟨?_, ?_, by decide⟩ <;>
    · simp only [change_permissions_rest]
      rw [if_pos h]

theorem noop_no_chmod_witness :
    (change_permissions_rest ⟨'7', '5', '5'⟩ ⟨false, false, true, 0o755⟩ true false
          OutputMode.normal true ⟨0, 0, 0, 0, 0⟩).chmod_attempt = none ∧
      (change_permissions_rest ⟨'7', '5', '5'⟩ ⟨false, false, true, 0o755⟩ true false
          OutputMode.normal true ⟨0, 0, 0, 0, 0⟩).counters = ⟨0, 0, 0, 0, 0⟩ ∧
      apply_wildcard_mode ⟨'7', '5', '5'⟩ 0o755 = 0o755 :=
  noop_no_chmod ⟨'7', '5', '5'⟩ ⟨false, false, true, 0o755⟩ true false
    OutputMode.normal true ⟨0, 0, 0, 0, 0⟩ (by decide)

/-- C3: per-entry symlink handling.  Under `Skip` only the skipped
counter moves and no `chmod` is attempted; under a successful `Follow`
the followed counter moves by one and the permission change proceeds on
the resolved target's kind and mode; under `Error` only the error
counter moves and no `chmod` is attempted; and in the `readdir` loop a
non-`DT_DIR` child (such as a symlink) never stops processing of the
remaining entries. -/
theorem symlink_policy_spec :
    (∀ (wm : WildcardMode) (e : Entry) (st : Stat) (cf cd : Bool)
        (om : OutputMode) (c : Counters),
        e.lstatRes = some st → st.isLnk = true →
        change_permissions wm e cf cd SymlinkMode.skip om c =
          { counters := { c with symlinks_skipped := c.symlinks_skipped + 1 }
            events :=
              if om = OutputMode.normal ∨ om = OutputMode.verbose then
                [Ev.skipNotice]
              else []
            chmod_attempt := none }) ∧
    (∀ (wm : WildcardMode) (e : Entry) (st st2 : Stat) (cf cd : Bool)
        (om : OutputMode) (c : Counters),
        e.lstatRes = some st → st.isLnk = true → e.statRes = some st2 →
        (change_permissions wm e cf cd SymlinkMode.follow om c).counters.symlinks_followed =
            c.symlinks_followed + 1 ∧
          (change_permissions wm e cf cd SymlinkMode.follow om c).counters.symlinks_skipped =
            c.symlinks_skipped ∧
          (change_permissions wm e cf cd SymlinkMode.follow om c).counters.symlink_errors =
            c.symlink_errors ∧
          (change_permissions wm e cf cd SymlinkMode.follow om c).chmod_attempt =
            (change_permissions_rest wm st2 cf cd om e.chmodOk
              { c with symlinks_followed := c.symlinks_followed + 1 }).chmod_attempt ∧
          (change_permissions wm e cf cd SymlinkMode.follow om c).counters.files_changed =
            (change_permissions_rest wm st2 cf cd om e.chmodOk
              { c with symlinks_followed := c.symlinks_followed + 1 }).counters.files_changed ∧
          (change_permissions wm e cf cd SymlinkMode.follow om c).counters.dirs_changed =
            (change_permissions_rest wm st2 cf cd om e.chmodOk
              { c with symlinks_followed := c.symlinks_followed + 1 }).counters.dirs_changed) ∧
    (∀ (wm : WildcardMode) (e : Entry) (st : Stat) (cf cd : Bool)
        (om : OutputMode) (c : Counters),
        e.lstatRes = some st → st.isLnk = true →
        change_permissions wm e cf cd SymlinkMode.error om c =
          { counters := { c with symlink_errors := c.symlink_errors + 1 }
            events := if om ≠ OutputMode.silent then [Ev.errSymlinkFound] else []
            chmod_attempt := none }) ∧
    (∀ (wm : WildcardMode) (child : Node) (sib : List Node)
        (recursive cf cd incl : Bool) (sm : SymlinkMode) (om : OutputMode)
        (c : Counters),
        child.isDirEntOf = false →
        (process_children wm (child :: sib) recursive cf cd incl sm om c).1 =
          (process_children wm sib recursive cf cd incl sm om
            (change_permissions wm child.entryOf cf cd sm om c).counters).1) := by
  refine ⟨?_, ?_, ?_, ?_⟩
  · intro wm e st cf cd om c h1 h2
    simp [change_permissions, h1, h2]
  · intro wm e st st2 cf cd om c h1 h2 h3
    have hp := rest_preserves_symlink_counters wm st2 cf cd om e.chmodOk
      { c with symlinks_followed := c.symlinks_followed + 1 }
    simp [change_permissions, h1, h2, h3]
    exact ⟨hp.2.1, hp.1, hp.2.2⟩
  · intro wm e st cf cd om c h1 h2
    simp [change_permissions, h1, h2]
  · intro wm child sib recursive cf cd incl sm om c hdt
    simp [process_children, hdt]

theorem symlink_policy_spec_witness :
    change_permissions ⟨'7', '5', '5'⟩ ⟨some ⟨true, false, false, 0o777⟩, none, true⟩
        true false SymlinkMode.skip OutputMode.normal ⟨0, 0, 0, 0, 0⟩ =
      { counters := ⟨0, 0, 1, 0, 0⟩, events := [Ev.skipNotice], chmod_attempt := none } ∧
    (change_permissions ⟨'7', '5', '5'⟩
        ⟨some ⟨true, false, false, 0o777⟩, some ⟨false, false, true, 0o644⟩, true⟩
        true false SymlinkMode.follow OutputMode.normal ⟨0, 0, 0, 0, 0⟩).counters.symlinks_followed = 1 ∧
    change_permissions ⟨'7', '5', '5'⟩ ⟨some ⟨true, false, false, 0o777⟩, none, true⟩
        true false SymlinkMode.error OutputMode.normal ⟨0, 0, 0, 0, 0⟩ =
      { counters := ⟨0, 0, 0, 0, 1⟩, events := [Ev.errSymlinkFound], chmod_attempt := none } ∧
    (process_children ⟨'7', '5', '5'⟩
        [Node.mk ⟨some ⟨true, false, false, 0o777⟩, none, true⟩ false true []]
        true true false false SymlinkMode.error OutputMode.normal ⟨0, 0, 0, 0, 0⟩).1 =
      (process_children ⟨'7', '5', '5'⟩ [] true true false false SymlinkMode.error
        OutputMode.normal
        (change_permissions ⟨'7', '5', '5'⟩ ⟨some ⟨true, false, false, 0o777⟩, none, true⟩
          true false SymlinkMode.error OutputMode.normal ⟨0, 0, 0, 0, 0⟩).counters).1 := by
  refine ⟨?_, ?_, ?_, ?_⟩
  · have h := symlink_policy_spec.1 ⟨'7', '5', '5'⟩
      ⟨some ⟨true, false, false, 0o777⟩, none, true⟩ ⟨true, false, false, 0o777⟩
      true false OutputMode.normal ⟨0, 0, 0, 0, 0⟩ rfl rfl
    rw [h]
    decide
  · have h := (symlink_policy_spec.2.1 ⟨'7', '5', '5'⟩
      ⟨some ⟨true, false, false, 0o777⟩, some ⟨false, false, true, 0o644⟩, true⟩
      ⟨true, false, false, 0o777⟩ ⟨false, false, true, 0o644⟩
      true false OutputMode.normal ⟨0, 0, 0, 0, 0⟩ rfl rfl rfl).1
    rw [h]
  · have h := symlink_policy_spec.2.2.1 ⟨'7', '5', '5'⟩
      ⟨some ⟨true, false, false, 0o777⟩, none, true⟩ ⟨true, false, false, 0o777⟩
      true false OutputMode.normal ⟨0, 0, 0, 0, 0⟩ rfl rfl
    rw [h]
    decide
  · exact symlink_policy_spec.2.2.2 ⟨'7', '5', '5'⟩
      (Node.mk ⟨some ⟨true, false, false, 0o777⟩, none, true⟩ false true []) []
      true true false false SymlinkMode.error OutputMode.normal ⟨0, 0, 0, 0, 0⟩ rfl

/-- C5 (failing evaluations): in the 0.1 source, a failing `chmod` on a
directory under normal verbosity emits no diagnostic at all, and a
failing `chmod` on a regular file under Quiet (`-s`) emits no diagnostic
either, although Quiet is documented to keep errors; version 0.2 emits
the diagnostic in both situations.  In all cases no changed-counter
moves. -/
theorem v01_chmod_failure_diagnostics :
    (change_permissions_v01 ⟨'7', '7', '7'⟩ ⟨some ⟨false, true, false, 0o700⟩, false⟩
        false true ⟨false, false, false⟩ ⟨0, 0⟩).events = [] ∧
    (change_permissions_v01 ⟨'7', '7', '7'⟩ ⟨some ⟨false, true, false, 0o700⟩, false⟩
        false true ⟨false, false, false⟩ ⟨0, 0⟩).counters = ⟨0, 0⟩ ∧
    (change_permissions_v01 ⟨'7', '7', '7'⟩ ⟨some ⟨false, false, true, 0o600⟩, false⟩
        true false ⟨true, false, false⟩ ⟨0, 0⟩).events = [] ∧
    (change_permissions_v01 ⟨'7', '7', '7'⟩ ⟨some ⟨false, false, true, 0o600⟩, false⟩
        true false ⟨true, false, false⟩ ⟨0, 0⟩).counters = ⟨0, 0⟩ ∧
    (change_permissions ⟨'7', '7', '7'⟩ ⟨some ⟨false, true, false, 0o700⟩, none, false⟩
        false true SymlinkMode.skip OutputMode.normal ⟨0, 0, 0, 0, 0⟩).events =
      [Ev.errChmodDir] ∧
    (change_permissions ⟨'7', '7', '7'⟩ ⟨some ⟨false, false, true, 0o600⟩, none, false⟩
        true false SymlinkMode.skip OutputMode.quiet ⟨0, 0, 0, 0, 0⟩).events =
      [Ev.errChmodFile] ∧
    (change_permissions ⟨'7', '7', '7'⟩ ⟨some ⟨false, false, true, 0o600⟩, none, false⟩
        true false SymlinkMode.skip OutputMode.quiet ⟨0, 0, 0, 0, 0⟩).counters =
      ⟨0, 0, 0, 0, 0⟩ := by
  decide

/-! ## Counter monotonicity -/

theorem counters_le_refl (c : Counters) : Counters.le c c := by
  unfold Counters.le
  omega

theorem counters_le_trans {a b c : Counters} (h1 : Counters.le a b)
    (h2 : Counters.le b c) : Counters.le a c := by
  unfold Counters.le at *
  omega

theorem rest_mono (wm : WildcardMode) (st : Stat) (cf cd : Bool)
    (om : OutputMode) (ck : Bool) (c : Counters) :
    Counters.le c (change_permissions_rest wm st cf cd om ck c).counters := by
  simp only [change_permissions_rest]
  split_ifs <;> simp [Counters.le]

theorem cp_mono (wm : WildcardMode) (e : Entry) (cf cd : Bool)
    (sm : SymlinkMode) (om : OutputMode) (c : Counters) :
    Counters.le c (change_permissions wm e cf cd sm om c).counters := by
  unfold change_permissions
  cases hls : e.lstatRes with
  | none => exact counters_le_refl c
  | some st =>
    cases hlnk : st.isLnk with
    | false => simpa [hlnk] using rest_mono wm st cf cd om e.chmodOk c
    | true =>
      cases sm with
      | skip => simp [hlnk, Counters.le]
      | follow =>
        cases hst : e.statRes with
        | none => simp [hlnk, hst]; exact counters_le_refl c
        | some st2 =>
          simp only [hlnk, hst, if_true]
          refine counters_le_trans (b := { c with symlinks_followed := c.symlinks_followed + 1 }) ?_ ?_
          · simp [Counters.le]
          · exact rest_mono wm st2 cf cd om e.chmodOk _
      | error => simp [hlnk, Counters.le]

mutual

theorem pd_mono (wm : WildcardMode) (n : Node)
    (recursive cf cd incl : Bool) (sm : SymlinkMode) (om : OutputMode)
    (c : Counters) :
    Counters.le c (process_directory wm n recursive cf cd incl sm om c).1 := by
  cases n with
  | mk entry d openOk children =>
    simp only [process_directory]
    have hbase : Counters.le c
        ((if cd && incl then
            ((change_permissions wm entry false true sm om c).counters,
              (change_permissions wm entry false true sm om c).events)
          else (c, [])) : Counters × List Ev).1 := by
      split
      · exact cp_mono wm entry false true sm om c
      · exact counters_le_refl c
    cases openOk with
    | false => simpa using hbase
    | true =>
      simp only [if_true]
      exact counters_le_trans hbase (pc_mono wm children recursive cf cd incl sm om _)

theorem pc_mono (wm : WildcardMode) (l : List Node)
    (recursive cf cd incl : Bool) (sm : SymlinkMode) (om : OutputMode)
    (c : Counters) :
    Counters.le c (process_children wm l recursive cf cd incl sm om c).1 := by
  cases l with
  | nil => exact counters_le_refl c
  | cons child sib =>
    simp only [process_children]
    have hstep := cp_mono wm child.entryOf cf cd sm om c
    have hrd : Counters.le (change_permissions wm child.entryOf cf cd sm om c).counters
        ((if recursive && child.isDirEntOf then
            process_directory wm child recursive cf cd incl sm om
              (change_permissions wm child.entryOf cf cd sm om c).counters
          else ((change_permissions wm child.entryOf cf cd sm om c).counters, [])) :
          Counters × List Ev).1 := by
      split
      · exact pd_mono wm child recursive cf cd incl sm om _
      · exact counters_le_refl _
    exact counters_le_trans hstep (counters_le_trans hrd
      (pc_mono wm sib recursive cf cd incl sm om _))

end

/-- C9: every counter is monotonically non-decreasing across every
per-entry operation and across the whole walk: `change_permissions`,
`process_directory` and the `readdir` loop only ever leave each of the
five counters equal or larger. -/
theorem counters_monotone :
    (∀ (wm : WildcardMode) (e : Entry) (cf cd : Bool) (sm : SymlinkMode)
        (om : OutputMode) (c : Counters),
        Counters.le c (change_permissions wm e cf cd sm om c).counters) ∧
    (∀ (wm : WildcardMode) (n : Node) (recursive cf cd incl : Bool)
        (sm : SymlinkMode) (om : OutputMode) (c : Counters),
        Counters.le c (process_directory wm n recursive cf cd incl sm om c).1) ∧
    (∀ (wm : WildcardMode) (l : List Node) (recursive cf cd incl : Bool)
        (sm : SymlinkMode) (om : OutputMode) (c : Counters),
        Counters.le c (process_children wm l recursive cf cd incl sm om c).1) :=
  ⟨cp_mono, pd_mono, pc_mono⟩

/-! ## Verbosity-flag processing -/

theorem output_mode_step_const (m m' : OutputMode) (f : VFlag) :
    output_mode_step m f = output_mode_step m' f := by
  cases f <;> rfl

theorem foldl_output_mode_step (l : List VFlag) :
    ∀ m : OutputMode, l.foldl output_mode_step m =
      match l.getLast? with
      | none => m
      | some f => output_mode_step OutputMode.normal f := by
  induction l with
  | nil => intro m; rfl
  | cons a t ih =>
    intro m
    cases t with
    | nil => simpa using output_mode_step_const m OutputMode.normal a
    | cons b t2 =>
      rw [List.foldl_cons, ih (output_mode_step m a), List.getLast?_cons_cons]
      cases hgl : (b :: t2).getLast? with
      | none => simp [List.getLast?_cons_cons] at hgl
      | some f => rfl

/-- C4 (counterexample): in version 0.2 the verbosity flags do not obey
the claimed order-independent precedence: `-v -s` yields Quiet, not
Verbose, and `-s -S` yields Silent, not Quiet; in version 0.1, `-v -s`
leaves `suppress_output` set. -/
theorem verbosity_order_counterexample :
    output_mode_after [VFlag.vFlag, VFlag.sFlag] = OutputMode.quiet ∧
    output_mode_after [VFlag.vFlag, VFlag.sFlag] ≠ OutputMode.verbose ∧
    output_mode_after [VFlag.sFlag, VFlag.bigSFlag] = OutputMode.silent ∧
    output_mode_after [VFlag.sFlag, VFlag.bigSFlag] ≠ OutputMode.quiet ∧
    (flags01_after [VFlag.vFlag, VFlag.sFlag]).suppress_output = true := by
  decide

theorem flags01_steady (l : List VFlag) (hnv : ∀ f ∈ l, f ≠ VFlag.vFlag) :
    l.foldl flags01_step ⟨true, false, false⟩ = ⟨true, false, false⟩ := by
  induction l with
  | nil => rfl
  | cons a t ih =>
    cases a with
    | sFlag =>
      rw [List.foldl_cons]
      exact ih fun f hf => hnv f (List.mem_cons_of_mem _ hf)
    | bigSFlag =>
      rw [List.foldl_cons]
      exact ih fun f hf => hnv f (List.mem_cons_of_mem _ hf)
    | vFlag => exact absurd rfl (hnv VFlag.vFlag (by simp))

theorem flags01_fold_s (l : List VFlag) (hnv : ∀ f ∈ l, f ≠ VFlag.vFlag) :
    ∀ st : Flags01, st.verbose = false → VFlag.sFlag ∈ l →
      l.foldl flags01_step st = ⟨true, false, false⟩ := by
  induction l with
  | nil =>
    intro st _ hs
    simp at hs
  | cons a t ih =>
    rintro ⟨so, sa, v⟩ hv hs
    simp only at hv
    subst hv
    rw [List.foldl_cons]
    cases a with
    | sFlag =>
      exact flags01_steady t fun f hf => hnv f (List.mem_cons_of_mem _ hf)
    | bigSFlag =>
      have hs2 : VFlag.sFlag ∈ t := by
        rcases List.mem_cons.mp hs with h | h
        · simp at h
        · exact h
      have hv2 : (flags01_step ⟨so, sa, false⟩ VFlag.bigSFlag).verbose = false := by
        cases so <;> rfl
      exact ih (fun f hf => hnv f (List.mem_cons_of_mem _ hf)) _ hv2 hs2
    | vFlag => exact absurd rfl (hnv VFlag.vFlag (by simp))

/-- C4 (amended): verbosity flags take effect in command-line order.  In
version 0.2 each of `-s`/`-S`/`-v` assigns the output mode directly, so
the effective verbosity is that of the last such flag given (Normal when
none is).  In version 0.1, among the suppression flags alone (no `-v`
given), `-s` beats `-S` regardless of order. -/
theorem verbosity_flags_processing :
    (∀ l : List VFlag, output_mode_after l = lastVerb l) ∧
    (∀ l : List VFlag, (∀ f ∈ l, f ≠ VFlag.vFlag) → VFlag.sFlag ∈ l →
      flags01_after l = ⟨true, false, false⟩) := by
  constructor
  · intro l
    exact foldl_output_mode_step l OutputMode.normal
  · intro l hnv hs
    exact flags01_fold_s l hnv ⟨false, false, false⟩ rfl hs

theorem verbosity_flags_processing_witness :
    output_mode_after [VFlag.sFlag, VFlag.bigSFlag] =
        lastVerb [VFlag.sFlag, VFlag.bigSFlag] ∧
      flags01_after [VFlag.bigSFlag, VFlag.sFlag] = ⟨true, false, false⟩ :=
  ⟨verbosity_flags_processing.1 [VFlag.sFlag, VFlag.bigSFlag],
    verbosity_flags_processing.2 [VFlag.bigSFlag, VFlag.sFlag] (by decide) (by decide)⟩

/-! ## The final summary -/

/-- C8 (counterexample): with the Skip policy and zero skipped symlinks
the summary contains no symlink-counter line at all, although the claim
asserts that the counter matching the active policy is reported. -/
theorem summary_zero_counter_counterexample :
    print_summary OutputMode.normal SymlinkMode.skip ⟨0, 0, 0, 0, 0⟩ =
      [SummaryEv.completed, SummaryEv.filesLine 0, SummaryEv.dirsLine 0] ∧
    ∀ n : Nat, SummaryEv.skippedLine n ∉
      print_summary OutputMode.normal SymlinkMode.skip ⟨0, 0, 0, 0, 0⟩ := by
  have h : print_summary OutputMode.normal SymlinkMode.skip ⟨0, 0, 0, 0, 0⟩ =
      [SummaryEv.completed, SummaryEv.filesLine 0, SummaryEv.dirsLine 0] := by
    decide
  refine ⟨h, ?_⟩
  intro n hn
  rw [h] at hn
  simp at hn

/-- C8 (amended): unless verbosity is Silent, the summary reports the
files-changed and directories-changed accumulators; a symlink-counter
line appears exactly when the active policy's counter is positive, and
then it carries that counter; counters of the other two policies are
never printed. -/
theorem summary_reports (om : OutputMode) (sm : SymlinkMode) (c : Counters)
    (h : om ≠ OutputMode.silent) :
    SummaryEv.filesLine c.files_changed ∈ print_summary om sm c ∧
    SummaryEv.dirsLine c.dirs_changed ∈ print_summary om sm c ∧
    (∀ n, SummaryEv.skippedLine n ∈ print_summary om sm c ↔
      sm = SymlinkMode.skip ∧ 0 < c.symlinks_skipped ∧ n = c.symlinks_skipped) ∧
    (∀ n, SummaryEv.followedLine n ∈ print_summary om sm c ↔
      sm = SymlinkMode.follow ∧ 0 < c.symlinks_followed ∧ n = c.symlinks_followed) ∧
    (∀ n, SummaryEv.symErrLine n ∈ print_summary om sm c ↔
      sm = SymlinkMode.error ∧ 0 < c.symlink_errors ∧ n = c.symlink_errors) := by
  unfold print_summary
  rw [if_neg h]
  refine ⟨by simp, by simp, ?_, ?_, ?_⟩ <;> intro n <;>
    · simp only [List.mem_append, List.mem_cons, List.not_mem_nil]
      split_ifs with h1 h2 h3 <;> simp_all

theorem summary_reports_witness :
    SummaryEv.skippedLine 3 ∈
      print_summary OutputMode.normal SymlinkMode.skip ⟨1, 2, 3, 4, 5⟩ :=
  ((summary_reports OutputMode.normal SymlinkMode.skip ⟨1, 2, 3, 4, 5⟩
    (by decide)).2.2.1 3).mpr ⟨rfl, by decide, rfl⟩

end Rper
